import Mathlib

/-!
Verification of the growth-model core of `celular_growth_simulator.py`.

The numeric core consists of three pure functions on real numbers:
`_crecimiento_sin_tratamiento` (untreated growth),
`_crecimiento_con_tratamiento` (treated growth) and
`_calcular_tiempo_medio` (analytic half-capacity time via the quadratic
formula).  They are embedded below over `ℝ`, with `Real.exp`, `Real.log`,
`Real.sqrt` and real powers standing for the corresponding numpy
operations, and `Option ℝ` standing for the Python value-or-`None` result.

On the failure paths of `_calcular_tiempo_medio` the Python code relies on
IEEE nan/inf propagation and on the surrounding `try/except`:
for `A ≤ 0`, `np.log` yields nan or `-inf` and every downstream comparison
(`discriminant >= 0`, `t > 0`, `t <= Tf`) ends in the `None` outcome;
for a zero leading coefficient `a_param = -r*alpha = 0` the divisions by
`2*a_param` yield nan/`-inf` (or raise, if the operands are plain Python
floats), again ending in `None`.  Real numbers have no nan, so those two
paths are modelled by explicit early `none` branches; on every other input
the embedding follows the source expression for expression.
-/

noncomputable section

/-- Untreated growth `N0 * 2**(t/Td) * np.exp(-0.02*t)`
(`_crecimiento_sin_tratamiento`, line 39 of the source). -/
def crecimiento_sin_tratamiento (t N0 Td : ℝ) : ℝ :=
  N0 * (2 : ℝ) ^ (t / Td) * Real.exp (-0.02 * t)

/-- Treated growth `K / (1 + A * np.exp(-r*t*(1 - alpha*t)))` where the
local `A = (K - N0)/N0` of the source is inlined
(`_crecimiento_con_tratamiento`, lines 45-46). -/
def crecimiento_con_tratamiento (t N0 K r alpha : ℝ) : ℝ :=
  K / (1 + (K - N0) / N0 * Real.exp (-r * t * (1 - alpha * t)))

/-- `a_param = -r * alpha` (line 139). -/
def a_param (r alpha : ℝ) : ℝ := -r * alpha

/-- `b_param = r` (line 140). -/
def b_param (r : ℝ) : ℝ := r

/-- `c_param = -np.log(A)` (line 141). -/
def c_param (A : ℝ) : ℝ := -Real.log A

/-- `discriminant = b_param**2 - 4*a_param*c_param` (line 143). -/
def discriminant (r alpha A : ℝ) : ℝ :=
  (b_param r) ^ 2 - 4 * a_param r alpha * c_param A

/-- `t1 = (-b_param + np.sqrt(discriminant)) / (2*a_param)` (line 145). -/
def t1 (r alpha A : ℝ) : ℝ :=
  (-(b_param r) + Real.sqrt (discriminant r alpha A)) / (2 * a_param r alpha)

/-- `t2 = (-b_param - np.sqrt(discriminant)) / (2*a_param)` (line 146). -/
def t2 (r alpha A : ℝ) : ℝ :=
  (-(b_param r) - Real.sqrt (discriminant r alpha A)) / (2 * a_param r alpha)

/-- `max(t1, t2) if t1 > 0 and t2 > 0 else (t1 if t1 > 0 else t2)`
(line 148): the candidate root before the range filter. -/
def t_half_candidate (r alpha A : ℝ) : ℝ :=
  if 0 < t1 r alpha A ∧ 0 < t2 r alpha A then max (t1 r alpha A) (t2 r alpha A)
  else if 0 < t1 r alpha A then t1 r alpha A else t2 r alpha A

/-- `_calcular_tiempo_medio(N0, r, alpha, A)` (lines 136-155); `Tf` is the
instance field `self.Tf` and `N0` is accepted but, as in the source, unused.
The two explicit `none` branches are the nan/exception paths described in
the module docstring; the rest mirrors the source line by line. -/
def calcular_tiempo_medio (Tf N0 r alpha A : ℝ) : Option ℝ :=
  if A ≤ 0 then none
  else if a_param r alpha = 0 then none
  else if 0 ≤ discriminant r alpha A then
    if 0 < t_half_candidate r alpha A ∧ t_half_candidate r alpha A ≤ Tf then
      some (t_half_candidate r alpha A)
    else none
  else none

/-! ### Helper lemmas -/

/-- The `+` branch of the quadratic formula really is a root. -/
lemma quadratic_root_plus (a b c : ℝ) (ha : a ≠ 0) (hd : 0 ≤ b ^ 2 - 4 * a * c) :
    a * ((-b + Real.sqrt (b ^ 2 - 4 * a * c)) / (2 * a)) ^ 2 +
      b * ((-b + Real.sqrt (b ^ 2 - 4 * a * c)) / (2 * a)) + c = 0 := by
  have hs : Real.sqrt (b ^ 2 - 4 * a * c) ^ 2 = b ^ 2 - 4 * a * c :=
    Real.sq_sqrt hd
  field_simp
  nlinarith [hs]

/-- The `-` branch of the quadratic formula really is a root. -/
lemma quadratic_root_minus (a b c : ℝ) (ha : a ≠ 0) (hd : 0 ≤ b ^ 2 - 4 * a * c) :
    a * ((-b - Real.sqrt (b ^ 2 - 4 * a * c)) / (2 * a)) ^ 2 +
      b * ((-b - Real.sqrt (b ^ 2 - 4 * a * c)) / (2 * a)) + c = 0 := by
  have hs : Real.sqrt (b ^ 2 - 4 * a * c) ^ 2 = b ^ 2 - 4 * a * c :=
    Real.sq_sqrt hd
  field_simp
  nlinarith [hs]

/-- `t1` is a genuine root of the quadratic whenever the leading
coefficient is nonzero and the discriminant is nonnegative. -/
lemma t1_is_root (r alpha A : ℝ) (ha : a_param r alpha ≠ 0)
    (hd : 0 ≤ discriminant r alpha A) :
    a_param r alpha * (t1 r alpha A) ^ 2 + b_param r * t1 r alpha A + c_param A = 0 := by
  have h := quadratic_root_plus (a_param r alpha) (b_param r) (c_param A) ha
    (by simpa [discriminant] using hd)
  simpa [t1, discriminant] using h

/-- `t2` is a genuine root of the quadratic whenever the leading
coefficient is nonzero and the discriminant is nonnegative. -/
lemma t2_is_root (r alpha A : ℝ) (ha : a_param r alpha ≠ 0)
    (hd : 0 ≤ discriminant r alpha A) :
    a_param r alpha * (t2 r alpha A) ^ 2 + b_param r * t2 r alpha A + c_param A = 0 := by
  have h := quadratic_root_minus (a_param r alpha) (b_param r) (c_param A) ha
    (by simpa [discriminant] using hd)
  simpa [t2, discriminant] using h

/-- A root of the derived quadratic is a half-capacity crossing of the
treated-growth curve. -/
lemma treated_eq_half_of_root (t N0 K r alpha A : ℝ)
    (hA : A = (K - N0) / N0) (hApos : 0 < A)
    (hroot : a_param r alpha * t ^ 2 + b_param r * t + c_param A = 0) :
    crecimiento_con_tratamiento t N0 K r alpha = K / 2 := by
  have hlog : r * t * (1 - alpha * t) = Real.log A := by
    simp only [a_param, b_param, c_param] at hroot
    nlinarith [hroot]
  have hexp : Real.exp (-(r * t * (1 - alpha * t))) = A⁻¹ := by
    rw [hlog, Real.exp_neg, Real.exp_log hApos]
  have hA0 : A ≠ 0 := ne_of_gt hApos
  unfold crecimiento_con_tratamiento
  rw [← hA]
  have harg : -r * t * (1 - alpha * t) = -(r * t * (1 - alpha * t)) := by ring
  rw [harg, hexp, mul_inv_cancel₀ hA0]
  norm_num

/-! ### Claims about the growth functions -/

/-- Claim C7: for every `N0 > 0` and `Td > 0`, the untreated-growth
formula evaluates exactly to `N0` at `t = 0`. -/
theorem C7_untreated_at_zero (N0 Td : ℝ) (hN0 : 0 < N0) (hTd : 0 < Td) :
    crecimiento_sin_tratamiento 0 N0 Td = N0 := by
  unfold crecimiento_sin_tratamiento
  rw [zero_div, Real.rpow_zero, mul_zero, Real.exp_zero, mul_one, mul_one]

/-- Witness for C7 at `N0 = 50`, `Td = 3.5`. -/
theorem C7_witness :
    0 < (50 : ℝ) ∧ 0 < (3.5 : ℝ) ∧ crecimiento_sin_tratamiento 0 50 3.5 = 50 :=
  ⟨by norm_num, by norm_num, C7_untreated_at_zero 50 3.5 (by norm_num) (by norm_num)⟩

/-- Claim C8: for every `N0 > 0`, `K > 0`, `r > 0`, `alpha ≥ 0`, the
treated-growth formula evaluates exactly to `N0` at `t = 0`: the
denominator reduces to `1 + (K - N0)/N0 = K/N0` and `K/(K/N0) = N0`. -/
theorem C8_treated_at_zero (N0 K r alpha : ℝ) (hN0 : 0 < N0) (hK : 0 < K)
    (hr : 0 < r) (halpha : 0 ≤ alpha) :
    crecimiento_con_tratamiento 0 N0 K r alpha = N0 := by
  unfold crecimiento_con_tratamiento
  rw [mul_zero, zero_mul, Real.exp_zero, mul_one]
  have hden : 1 + (K - N0) / N0 = K / N0 := by
    field_simp
  rw [hden]
  rw [div_div_eq_mul_div, mul_comm, mul_div_assoc, div_self (ne_of_gt hK), mul_one]

/-- Witness for C8 at `N0 = 50`, `K = 800`, `r = 0.25`, `alpha = 0.01`. -/
theorem C8_witness :
    0 < (50 : ℝ) ∧ 0 < (800 : ℝ) ∧ 0 < (0.25 : ℝ) ∧ (0 : ℝ) ≤ 0.01 ∧
      crecimiento_con_tratamiento 0 50 800 0.25 0.01 = 50 :=
  ⟨by norm_num, by norm_num, by norm_num, by norm_num,
    C8_treated_at_zero 50 800 0.25 0.01 (by norm_num) (by norm_num) (by norm_num)
      (by norm_num)⟩

/-- Claim C10: for `0 < N0 < K`, `r > 0`, `alpha ≥ 0` and every `t`, the
treated-growth value lies strictly between `0` and `K`: the denominator
`1 + A * exp(...)` with `A = (K - N0)/N0 > 0` is strictly greater than 1. -/
theorem C10_treated_bounds (t N0 K r alpha : ℝ) (hN0 : 0 < N0) (hNK : N0 < K)
    (hr : 0 < r) (halpha : 0 ≤ alpha) :
    0 < crecimiento_con_tratamiento t N0 K r alpha ∧
      crecimiento_con_tratamiento t N0 K r alpha < K := by
  have hK : 0 < K := lt_trans hN0 hNK
  have hApos : 0 < (K - N0) / N0 := div_pos (by linarith) hN0
  have hexp : 0 < Real.exp (-r * t * (1 - alpha * t)) := Real.exp_pos _
  have hden : 1 < 1 + (K - N0) / N0 * Real.exp (-r * t * (1 - alpha * t)) := by
    nlinarith
  unfold crecimiento_con_tratamiento
  constructor
  · exact div_pos hK (by linarith)
  · rw [div_lt_iff₀ (by linarith)]
    nlinarith

/-- Witness for C10 at `t = 7`, `N0 = 50`, `K = 800`, `r = 0.25`,
`alpha = 0.01`. -/
theorem C10_witness :
    0 < (50 : ℝ) ∧ (50 : ℝ) < 800 ∧ 0 < (0.25 : ℝ) ∧ (0 : ℝ) ≤ 0.01 ∧
      (0 < crecimiento_con_tratamiento 7 50 800 0.25 0.01 ∧
        crecimiento_con_tratamiento 7 50 800 0.25 0.01 < 800) :=
  ⟨by norm_num, by norm_num, by norm_num, by norm_num,
    C10_treated_bounds 7 50 800 0.25 0.01 (by norm_num) (by norm_num) (by norm_num)
      (by norm_num)⟩

/-! ### Claims about the failure branches of the solver -/

/-- Claim C5: whenever the headroom ratio `A` is nonpositive (that is,
`N0 ≥ K` for positive populations), `_calcular_tiempo_medio` produces the
no-value outcome instead of an error. -/
theorem C5_nonpositive_A_none (Tf N0 r alpha A : ℝ) (hA : A ≤ 0) :
    calcular_tiempo_medio Tf N0 r alpha A = none := by
  unfold calcular_tiempo_medio
  rw [if_pos hA]

/-- Witness for C5 at `A = 0` (the `N0 = K = 800` scenario). -/
theorem C5_witness :
    (0 : ℝ) ≤ 0 ∧ calcular_tiempo_medio 40 800 0.25 0.01 0 = none :=
  ⟨le_refl 0, C5_nonpositive_A_none 40 800 0.25 0.01 0 (le_refl 0)⟩

/-- Claim C6: for `A > 0` with strictly negative discriminant, the solver
returns the no-value outcome. -/
theorem C6_neg_disc_none (Tf N0 r alpha A : ℝ) (hA : 0 < A)
    (hd : discriminant r alpha A < 0) :
    calcular_tiempo_medio Tf N0 r alpha A = none := by
  unfold calcular_tiempo_medio
  rw [if_neg (not_le.mpr hA)]
  by_cases ha : a_param r alpha = 0
  · rw [if_pos ha]
  · rw [if_neg ha, if_neg (not_le.mpr hd)]

/-- Witness for C6 at `r = 1`, `alpha = 1`, `A = e` (so `ln A = 1` and
the discriminant is `1 - 4 = -3 < 0`). -/
theorem C6_witness :
    0 < Real.exp 1 ∧ discriminant 1 1 (Real.exp 1) < 0 ∧
      calcular_tiempo_medio 40 50 1 1 (Real.exp 1) = none := by
  have hd : discriminant 1 1 (Real.exp 1) < 0 := by
    simp only [discriminant, a_param, b_param, c_param, Real.log_exp]
    norm_num
  exact ⟨Real.exp_pos 1, hd, C6_neg_disc_none 40 50 1 1 (Real.exp 1) (Real.exp_pos 1) hd⟩

/-- Claim C9: with `alpha = 0` the leading coefficient `-r*alpha`
vanishes, the quadratic degenerates, and the solver returns the no-value
outcome (it never falls back to the linear solution `ln(A)/r`). -/
theorem C9_alpha_zero_none (Tf N0 r A : ℝ) (hN0 : 0 < N0) (hr : 0 < r)
    (hA : 0 < A) :
    calcular_tiempo_medio Tf N0 r 0 A = none := by
  unfold calcular_tiempo_medio
  rw [if_neg (not_le.mpr hA), if_pos (show a_param r 0 = 0 by simp [a_param])]

/-- Witness for C9 at `Tf = 40`, `N0 = 50`, `r = 0.25`, `A = 15`. -/
theorem C9_witness :
    0 < (50 : ℝ) ∧ 0 < (0.25 : ℝ) ∧ 0 < (15 : ℝ) ∧
      calcular_tiempo_medio 40 50 0.25 0 15 = none :=
  ⟨by norm_num, by norm_num, by norm_num,
    C9_alpha_zero_none 40 50 0.25 15 (by norm_num) (by norm_num) (by norm_num)⟩

/-- Claim C4: every arithmetic-failure path of `_calcular_tiempo_medio`
(logarithm of a nonpositive `A`, zero leading coefficient, negative
discriminant) ends in the no-value outcome rather than a propagated
error. -/
theorem C4_failures_to_none (Tf N0 r alpha A : ℝ)
    (h : A ≤ 0 ∨ a_param r alpha = 0 ∨ discriminant r alpha A < 0) :
    calcular_tiempo_medio Tf N0 r alpha A = none := by
  unfold calcular_tiempo_medio
  rcases h with h | h | h
  · rw [if_pos h]
  · by_cases hA : A ≤ 0
    · rw [if_pos hA]
    · rw [if_neg hA, if_pos h]
  · by_cases hA : A ≤ 0
    · rw [if_pos hA]
    · rw [if_neg hA]
      by_cases ha : a_param r alpha = 0
      · rw [if_pos ha]
      · rw [if_neg ha, if_neg (not_le.mpr h)]

/-- Witness for C4 at `A = -1` (the `N0 > K` scenario). -/
theorem C4_witness :
    ((-1 : ℝ) ≤ 0 ∨ a_param 0.25 0.01 = 0 ∨ discriminant 0.25 0.01 (-1) < 0) ∧
      calcular_tiempo_medio 40 900 0.25 0.01 (-1) = none :=
  ⟨Or.inl (by norm_num),
    C4_failures_to_none 40 900 0.25 0.01 (-1) (Or.inl (by norm_num))⟩

/-! ### Soundness and root-selection policy of the solver -/

/-- Claim C2: whenever `_calcular_tiempo_medio` returns a value `t`
(rather than `None`), that `t` lies in `(0, Tf]` and is a genuine
half-capacity crossing: `crecimiento_con_tratamiento t N0 K r alpha = K/2`
in exact real arithmetic. -/
theorem C2_solver_sound (Tf N0 K r alpha A t : ℝ) (hN0 : 0 < N0) (hK : 0 < K)
    (hr : 0 < r) (halpha : 0 ≤ alpha) (hA : A = (K - N0) / N0) (hTf : 0 < Tf)
    (h : calcular_tiempo_medio Tf N0 r alpha A = some t) :
    0 < t ∧ t ≤ Tf ∧ crecimiento_con_tratamiento t N0 K r alpha = K / 2 := by
  unfold calcular_tiempo_medio at h
  by_cases h1 : A ≤ 0
  · rw [if_pos h1] at h; exact absurd h (by simp)
  rw [if_neg h1] at h
  by_cases h2 : a_param r alpha = 0
  · rw [if_pos h2] at h; exact absurd h (by simp)
  rw [if_neg h2] at h
  by_cases h3 : 0 ≤ discriminant r alpha A
  swap
  · rw [if_neg h3] at h; exact absurd h (by simp)
  rw [if_pos h3] at h
  by_cases h4 : 0 < t_half_candidate r alpha A ∧ t_half_candidate r alpha A ≤ Tf
  swap
  · rw [if_neg h4] at h; exact absurd h (by simp)
  rw [if_pos h4] at h
  have ht : t = t_half_candidate r alpha A := (Option.some_inj.mp h).symm
  have hApos : 0 < A := lt_of_not_le h1
  have hroot : a_param r alpha * t ^ 2 + b_param r * t + c_param A = 0 := by
    rw [ht]
    unfold t_half_candidate
    split_ifs with hb hb1
    · rcases max_choice (t1 r alpha A) (t2 r alpha A) with hmax | hmax <;> rw [hmax]
      · exact t1_is_root r alpha A h2 h3
      · exact t2_is_root r alpha A h2 h3
    · exact t1_is_root r alpha A h2 h3
    · exact t2_is_root r alpha A h2 h3
  exact ⟨ht ▸ h4.1, ht ▸ h4.2, treated_eq_half_of_root t N0 K r alpha A hA hApos hroot⟩

/-- Witness for C2: with `Tf = 10`, `N0 = 1`, `K = 1 + e`, `r = 3`,
`alpha = 5/12`, `A = e`, the discriminant is `9 - 5 = 4`, the roots are
`2/5` and `2`, and the solver returns `some 2`; soundness then gives the
crossing at `t = 2`. -/
theorem C2_witness :
    calcular_tiempo_medio 10 1 3 (5 / 12) (Real.exp 1) = some 2 ∧
      0 < (2 : ℝ) ∧ (2 : ℝ) ≤ 10 ∧
        crecimiento_con_tratamiento 2 1 (1 + Real.exp 1) 3 (5 / 12) = (1 + Real.exp 1) / 2 := by
  have hsqrt : Real.sqrt 4 = 2 := by
    rw [show (4 : ℝ) = 2 ^ 2 by norm_num, Real.sqrt_sq (by norm_num : (0 : ℝ) ≤ 2)]
  have hd : discriminant 3 (5 / 12) (Real.exp 1) = 4 := by
    simp only [discriminant, a_param, b_param, c_param, Real.log_exp]
    norm_num
  have ht1 : t1 3 (5 / 12) (Real.exp 1) = 2 / 5 := by
    simp only [t1, hd, hsqrt, a_param, b_param]
    norm_num
  have ht2 : t2 3 (5 / 12) (Real.exp 1) = 2 := by
    simp only [t2, hd, hsqrt, a_param, b_param]
    norm_num
  have hcand : t_half_candidate 3 (5 / 12) (Real.exp 1) = 2 := by
    unfold t_half_candidate
    rw [ht1, ht2, if_pos (by norm_num : (0 : ℝ) < 2 / 5 ∧ (0 : ℝ) < 2)]
    norm_num
  have hsome : calcular_tiempo_medio 10 1 3 (5 / 12) (Real.exp 1) = some 2 := by
    unfold calcular_tiempo_medio
    rw [if_neg (not_le.mpr (Real.exp_pos 1)),
      if_neg (show a_param 3 (5 / 12) ≠ 0 by norm_num [a_param]),
      if_pos (by rw [hd]; norm_num : (0 : ℝ) ≤ discriminant 3 (5 / 12) (Real.exp 1)),
      if_pos (by rw [hcand]; norm_num : 0 < t_half_candidate 3 (5 / 12) (Real.exp 1) ∧
        t_half_candidate 3 (5 / 12) (Real.exp 1) ≤ 10), hcand]
  refine ⟨hsome, C2_solver_sound 10 1 (1 + Real.exp 1) 3 (5 / 12) (Real.exp 1) 2
    (by norm_num) (by positivity) (by norm_num) (by norm_num) (by simp) (by norm_num) hsome⟩

/-- Claim C3: for `A > 0`, `r > 0`, `alpha > 0` and nonnegative
discriminant, the candidate before the range filter is `max(t1, t2)` when
both roots are positive and the unique positive root when exactly one is
positive, and the solver returns the candidate precisely when
`0 < candidate ≤ Tf`. -/
theorem C3_root_selection (Tf N0 r alpha A : ℝ) (hA : 0 < A) (hr : 0 < r)
    (halpha : 0 < alpha) (hd : 0 ≤ discriminant r alpha A) :
    (0 < t1 r alpha A ∧ 0 < t2 r alpha A →
      t_half_candidate r alpha A = max (t1 r alpha A) (t2 r alpha A)) ∧
    (0 < t1 r alpha A ∧ t2 r alpha A ≤ 0 →
      t_half_candidate r alpha A = t1 r alpha A) ∧
    (t1 r alpha A ≤ 0 ∧ 0 < t2 r alpha A →
      t_half_candidate r alpha A = t2 r alpha A) ∧
    calcular_tiempo_medio Tf N0 r alpha A =
      (if 0 < t_half_candidate r alpha A ∧ t_half_candidate r alpha A ≤ Tf then
        some (t_half_candidate r alpha A)
      else none) := by
  have haneg : a_param r alpha < 0 := by
    unfold a_param; nlinarith
  refine ⟨?_, ?_, ?_, ?_⟩
  · intro hb
    unfold t_half_candidate
    rw [if_pos hb]
  · rintro ⟨hb1, hb2⟩
    unfold t_half_candidate
    rw [if_neg (by rintro ⟨-, hc⟩; exact absurd hc (not_lt.mpr hb2)), if_pos hb1]
  · rintro ⟨hb1, hb2⟩
    unfold t_half_candidate
    rw [if_neg (by rintro ⟨hc, -⟩; exact absurd hc (not_lt.mpr hb1)),
      if_neg (not_lt.mpr hb1)]
  · unfold calcular_tiempo_medio
    rw [if_neg (not_le.mpr hA), if_neg (ne_of_lt haneg), if_pos hd]

/-- Witness for C3: the same quadratic as in the C2 scenario, at
`Tf = 1`; the range filter rejects the candidate `2 > 1`. -/
theorem C3_witness :
    0 < Real.exp 1 ∧ 0 ≤ discriminant 3 (5 / 12) (Real.exp 1) ∧
      calcular_tiempo_medio 1 1 3 (5 / 12) (Real.exp 1) =
        (if 0 < t_half_candidate 3 (5 / 12) (Real.exp 1) ∧
            t_half_candidate 3 (5 / 12) (Real.exp 1) ≤ 1 then
          some (t_half_candidate 3 (5 / 12) (Real.exp 1))
        else none) := by
  have hd : 0 ≤ discriminant 3 (5 / 12) (Real.exp 1) := by
    simp only [discriminant, a_param, b_param, c_param, Real.log_exp]
    norm_num
  exact ⟨Real.exp_pos 1, hd,
    (C3_root_selection 1 1 3 (5 / 12) (Real.exp 1) (Real.exp_pos 1) (by norm_num)
      (by norm_num) hd).2.2.2⟩

/-! ### The default scenario `K = 800`, `N0 = 50`, `r = 0.25`,
`alpha = 0.01`, `Tf = 40` (headroom ratio `A = (800 - 50)/50 = 15`) -/

lemma log_fifteen_pos : 0 < Real.log 15 :=
  Real.log_pos (by norm_num)

lemma log_fifteen_le_six : Real.log 15 ≤ 6 := by
  rw [Real.log_le_iff_le_exp (by norm_num)]
  have h3 : (4 : ℝ) ≤ Real.exp 3 := by
    have h := Real.add_one_le_exp (3 : ℝ)
    linarith
  have h6 : Real.exp 6 = Real.exp 3 * Real.exp 3 := by
    rw [← Real.exp_add]; norm_num
  nlinarith [Real.exp_pos 3]

lemma default_disc_eq :
    discriminant 0.25 0.01 15 = 0.0625 - 0.01 * Real.log 15 := by
  unfold discriminant a_param b_param c_param
  ring

lemma default_disc_nonneg : 0 ≤ discriminant 0.25 0.01 15 := by
  rw [default_disc_eq]
  have h := log_fifteen_le_six
  linarith

lemma default_sqrt_lb : 0.05 ≤ Real.sqrt (discriminant 0.25 0.01 15) := by
  rw [default_disc_eq]
  have h := log_fifteen_le_six
  have heq : (0.05 : ℝ) = Real.sqrt 0.0025 := by
    rw [show (0.0025 : ℝ) = 0.05 ^ 2 by norm_num,
      Real.sqrt_sq (by norm_num : (0 : ℝ) ≤ 0.05)]
  rw [heq]
  exact Real.sqrt_le_sqrt (by linarith)

lemma default_sqrt_ub : Real.sqrt (discriminant 0.25 0.01 15) < 0.25 := by
  rw [default_disc_eq]
  have h := log_fifteen_pos
  rw [Real.sqrt_lt' (by norm_num : (0 : ℝ) < 0.25)]
  nlinarith

lemma default_t1_eq :
    t1 0.25 0.01 15 = 50 - 200 * Real.sqrt (discriminant 0.25 0.01 15) := by
  unfold t1 a_param b_param
  rw [div_eq_iff (by norm_num : (2 : ℝ) * (-0.25 * 0.01) ≠ 0)]
  ring

lemma default_t2_eq :
    t2 0.25 0.01 15 = 50 + 200 * Real.sqrt (discriminant 0.25 0.01 15) := by
  unfold t2 a_param b_param
  rw [div_eq_iff (by norm_num : (2 : ℝ) * (-0.25 * 0.01) ≠ 0)]
  ring

lemma default_cand_eq :
    t_half_candidate 0.25 0.01 15 =
      50 + 200 * Real.sqrt (discriminant 0.25 0.01 15) := by
  have hs1 := default_sqrt_lb
  have hs2 := default_sqrt_ub
  unfold t_half_candidate
  rw [default_t1_eq, default_t2_eq,
    if_pos (⟨by linarith, by linarith⟩ :
      (0 : ℝ) < 50 - 200 * Real.sqrt (discriminant 0.25 0.01 15) ∧
        (0 : ℝ) < 50 + 200 * Real.sqrt (discriminant 0.25 0.01 15)),
    max_eq_right (by linarith)]

/-- In the default scenario the selected candidate is the larger root
`50 + 200*√(1/16 - ln(15)/100) ≈ 87.6 > Tf = 40`, so the range filter
rejects it and the solver returns `none`. -/
lemma default_scenario_none :
    calcular_tiempo_medio 40 50 0.25 0.01 15 = none := by
  unfold calcular_tiempo_medio
  rw [if_neg (by norm_num : ¬ (15 : ℝ) ≤ 0),
    if_neg (by norm_num [a_param] : ¬ a_param 0.25 0.01 = 0),
    if_pos default_disc_nonneg,
    if_neg (show ¬ (0 < t_half_candidate 0.25 0.01 15 ∧
        t_half_candidate 0.25 0.01 15 ≤ 40) by
      rw [default_cand_eq]
      rintro ⟨-, hle⟩
      have hs := default_sqrt_lb
      linarith)]

/-- Claim C1 as stated is false: with `K = 800`, `N0 = 50`, `r = 0.25`,
`alpha = 0.01`, `Tf = 40` (so `A = 15`), the solver returns `none`, hence
no returned `t*` with the claimed properties exists. -/
theorem C1_counterexample :
    ¬ ∃ t, calcular_tiempo_medio 40 50 0.25 0.01 15 = some t ∧
      0 < t ∧ t ≤ 40 ∧ crecimiento_con_tratamiento t 50 800 0.25 0.01 = 400 := by
  rintro ⟨t, ht, -⟩
  rw [default_scenario_none] at ht
  exact Option.noConfusion ht

/-- Claim C1 amended: in the default scenario the solver returns `none`
(the policy picks the larger root, which exceeds the horizon), even
though a genuine half-capacity crossing time in `(0, 40]` exists — the
smaller quadratic root `t1 = 50 - 200*√(1/16 - ln(15)/100) ≈ 12.36`. -/
theorem C1_amended :
    calcular_tiempo_medio 40 50 0.25 0.01 15 = none ∧
      ∃ t, 0 < t ∧ t ≤ 40 ∧ crecimiento_con_tratamiento t 50 800 0.25 0.01 = 400 := by
  refine ⟨default_scenario_none, ⟨t1 0.25 0.01 15, ?_, ?_, ?_⟩⟩
  · rw [default_t1_eq]
    have hs := default_sqrt_ub
    linarith
  · rw [default_t1_eq]
    have hs := default_sqrt_lb
    linarith
  · have hroot := t1_is_root 0.25 0.01 15 (by norm_num [a_param]) default_disc_nonneg
    have h := treated_eq_half_of_root (t1 0.25 0.01 15) 50 800 0.25 0.01 15
      (by norm_num) (by norm_num) hroot
    rw [h]
    norm_num
